import Mathlib

/-!
Shallow embedding of the PantryChef recipe-suggestion app:
the session state held by the `App` component, the event handlers that
mutate it (`addIngredient`, `removeIngredient`, `findDishes`,
`loadMoreSuggestions`, `showRecipe`, `reset`, the back buttons), and the
prompt construction of the suggestion client (`getDishSuggestions`).

Asynchronous handlers are split into an explicit start phase (which may
issue a request, modelled as an `Option SuggestRequest`) and completion
phases for the success and failure outcomes.
-/

namespace RecipeApp

/-- Difficulty enum of a dish suggestion (types.ts). -/
inductive Difficulty
  | easy
  | medium
  | hard
deriving DecidableEq, Repr

/-- Ingredient record (types.ts). -/
structure Ingredient where
  id : String
  name : String
deriving DecidableEq, Repr

/-- DishSuggestion record (types.ts). -/
structure DishSuggestion where
  id : String
  name : String
  description : String
  prepTime : String
  difficulty : Difficulty
deriving DecidableEq, Repr

/-- Substitution record (types.ts); alternatives are name/effect pairs. -/
structure SubstitutionAlt where
  name : String
  effect : String
deriving DecidableEq, Repr

/-- Substitution record (types.ts). -/
structure Substitution where
  original : String
  alternatives : List SubstitutionAlt
deriving DecidableEq, Repr

/-- Web source reference attached to a recipe detail (types.ts). -/
structure SourceRef where
  title : String
  uri : String
deriving DecidableEq, Repr

/-- RecipeDetail record (types.ts). -/
structure RecipeDetail where
  name : String
  ingredients : List String
  instructions : List String
  tips : List String
  substitutions : List Substitution
  youtubeSearchUrl : Option String
  sources : Option (List SourceRef)
deriving DecidableEq, Repr

/-- The five screens: AppState in types.ts. -/
inductive AppState
  | input
  | suggesting
  | results
  | loading_recipe
  | recipe
deriving DecidableEq, Repr

/-- The session state of the App component: one field per useState hook. -/
structure SessionState where
  state : AppState
  ingredients : List Ingredient
  inputValue : String
  suggestions : List DishSuggestion
  selectedRecipe : Option RecipeDetail
  error : Option String
  capturedImage : Option String
  isFetchingMore : Bool
  hasReachedEnd : Bool
deriving DecidableEq, Repr

/-- The initial values of every useState hook in App. -/
def initState : SessionState :=
  { state := AppState.input
    ingredients := []
    inputValue := ""
    suggestions := []
    selectedRecipe := none
    error := none
    capturedImage := none
    isFetchingMore := false
    hasReachedEnd := false }

/-- Parameters of one getDishSuggestions call. -/
structure SuggestRequest where
  ingredients : List String
  image : Option String
  exclude : List String
deriving DecidableEq, Repr

/-- The base64 payload extracted from a data URL: capturedImage.split(',')[1]. -/
def base64Part (img : Option String) : Option String :=
  img.bind (fun v => (v.splitOn ",").get? 1)

/-- Strip the leading whitespace characters of a character list. -/
def dropLeadWs : List Char → List Char
  | [] => []
  | c :: cs => if c.isWhitespace then dropLeadWs cs else c :: cs

/-- Model of String.prototype.trim: strip leading and trailing whitespace. -/
def jsTrim (s : String) : String :=
  String.mk ((dropLeadWs ((dropLeadWs s.data).reverse)).reverse)

/-- Handler addIngredient: no-op on a blank buffer, else append the trimmed
name with a fresh id and clear the buffer. The fresh id (crypto.randomUUID
in the source) is a parameter. -/
def addIngredient (newId : String) (s : SessionState) : SessionState :=
  if jsTrim s.inputValue = "" then s
  else
    { s with
      ingredients := s.ingredients ++ [{ id := newId, name := jsTrim s.inputValue }]
      inputValue := "" }

/-- Handler removeIngredient: drop the ingredient with the given id. -/
def removeIngredient (id : String) (s : SessionState) : SessionState :=
  { s with ingredients := s.ingredients.filter (fun i => i.id ≠ id) }

/-- Typing in the text field: setInputValue. -/
def setInputValue (v : String) (s : SessionState) : SessionState :=
  { s with inputValue := v }

/-- Completion of handleFileUpload: setCapturedImage with the data URL. -/
def setCapturedImage (img : String) (s : SessionState) : SessionState :=
  { s with capturedImage := some img }

/-- Synchronous prefix of findDishes, up to the await: either the no-input
guard fires (error set, nothing else happens, no request), or the error is
cleared, the screen becomes suggesting, hasReachedEnd is reset and a
request with an empty exclusion list is issued. -/
def findDishesStart (s : SessionState) : SessionState × Option SuggestRequest :=
  if s.ingredients.isEmpty && s.capturedImage.isNone then
    ({ s with error := some "Please add at least one ingredient or a photo." }, none)
  else
    ({ s with error := none, state := AppState.suggesting, hasReachedEnd := false },
     some { ingredients := s.ingredients.map (fun i => i.name)
            image := base64Part s.capturedImage
            exclude := [] })

/-- Successful completion of findDishes: store the results and show them. -/
def findDishesOk (s : SessionState) (results : List DishSuggestion) : SessionState :=
  { s with suggestions := results, state := AppState.results }

/-- Failing completion of findDishes: the catch block. -/
def findDishesErr (s : SessionState) : SessionState :=
  { s with
    error := some "Failed to get suggestions. Please check your API key."
    state := AppState.input }

/-- Synchronous prefix of loadMoreSuggestions: dropped when a fetch is in
flight or the end was reached; otherwise marks the fetch in flight and
issues a request excluding the names of all suggestions already shown. -/
def loadMoreStart (s : SessionState) : SessionState × Option SuggestRequest :=
  if s.isFetchingMore || s.hasReachedEnd then (s, none)
  else
    ({ s with isFetchingMore := true },
     some { ingredients := s.ingredients.map (fun i => i.name)
            image := base64Part s.capturedImage
            exclude := s.suggestions.map (fun d => d.name) })

/-- Successful completion of loadMoreSuggestions, including the finally
block: zero new items flag exhaustion, otherwise append. -/
def loadMoreOk (s : SessionState) (results : List DishSuggestion) : SessionState :=
  if results.isEmpty then { s with hasReachedEnd := true, isFetchingMore := false }
  else { s with suggestions := s.suggestions ++ results, isFetchingMore := false }

/-- Failing completion of loadMoreSuggestions: the catch block only logs,
the finally block clears the in-flight flag. -/
def loadMoreErr (s : SessionState) : SessionState :=
  { s with isFetchingMore := false }

/-- Synchronous prefix of showRecipe: switch to the loading screen. -/
def showRecipeStart (s : SessionState) : SessionState :=
  { s with state := AppState.loading_recipe }

/-- Successful completion of showRecipe: store the detail and show it. -/
def showRecipeOk (s : SessionState) (detail : RecipeDetail) : SessionState :=
  { s with selectedRecipe := some detail, state := AppState.recipe }

/-- Failing completion of showRecipe: the catch block. -/
def showRecipeErr (s : SessionState) : SessionState :=
  { s with error := some "Failed to fetch recipe details.", state := AppState.results }

/-- The back-to-edit button on the results screen: setState to input. -/
def backFromResults (s : SessionState) : SessionState :=
  { s with state := AppState.input }

/-- The back-to-suggestions button on the recipe screen: setState to results. -/
def backFromRecipe (s : SessionState) : SessionState :=
  { s with state := AppState.results }

/-- The reset handler (the Start Over button): exactly the six setters it
calls, nothing more. -/
def reset (s : SessionState) : SessionState :=
  { s with
    state := AppState.input
    suggestions := []
    selectedRecipe := none
    capturedImage := none
    ingredients := []
    hasReachedEnd := false }

/-- One event of the session: each constructor is one handler invocation or
one asynchronous completion, guarded by the screen on which the triggering
control is rendered (completions of the pagination fetch only require the
fetch to be in flight). -/
inductive Step : SessionState → SessionState → Prop
  | typeInput {s : SessionState} (v : String) :
      s.state = AppState.input → Step s (setInputValue v s)
  | add {s : SessionState} (newId : String) :
      s.state = AppState.input → Step s (addIngredient newId s)
  | remove {s : SessionState} (id : String) :
      s.state = AppState.input → Step s (removeIngredient id s)
  | upload {s : SessionState} (img : String) :
      s.state = AppState.input → Step s (setCapturedImage img s)
  | submit {s : SessionState} :
      s.state = AppState.input → Step s (findDishesStart s).1
  | suggestOk {s : SessionState} (results : List DishSuggestion) :
      s.state = AppState.suggesting → Step s (findDishesOk s results)
  | suggestErr {s : SessionState} :
      s.state = AppState.suggesting → Step s (findDishesErr s)
  | loadMore {s : SessionState} :
      s.state = AppState.results → Step s (loadMoreStart s).1
  | loadOk {s : SessionState} (results : List DishSuggestion) :
      s.isFetchingMore = true → Step s (loadMoreOk s results)
  | loadErr {s : SessionState} :
      s.isFetchingMore = true → Step s (loadMoreErr s)
  | select {s : SessionState} (dish : DishSuggestion) :
      s.state = AppState.results → dish ∈ s.suggestions → Step s (showRecipeStart s)
  | recipeOk {s : SessionState} (detail : RecipeDetail) :
      s.state = AppState.loading_recipe → Step s (showRecipeOk s detail)
  | recipeErr {s : SessionState} :
      s.state = AppState.loading_recipe → Step s (showRecipeErr s)
  | backResults {s : SessionState} :
      s.state = AppState.results → Step s (backFromResults s)
  | backRecipe {s : SessionState} :
      s.state = AppState.recipe → Step s (backFromRecipe s)
  | startOver {s : SessionState} :
      s.state = AppState.recipe → Step s (reset s)

/-- States reachable from the initial mount by events of the session. -/
inductive Reachable : SessionState → Prop
  | init : Reachable initState
  | step {s t : SessionState} : Reachable s → Step s t → Reachable t

/-- Join a list of strings with a comma-space separator: Array.join(', '). -/
def joinComma : List String → String
  | [] => ""
  | [x] => x
  | x :: xs => x ++ ", " ++ joinComma xs

/-- The exclusion clause of the suggestion prompt (geminiService). -/
def excludeText (excludeDishes : List String) : String :=
  if excludeDishes.length > 0 then
    " DO NOT suggest any of these existing dishes: " ++ joinComma excludeDishes ++ "."
  else ""

/-- The full suggestion prompt built by getDishSuggestions. -/
def suggestionPrompt (ingredients excludeDishes : List String) : String :=
  "Based on these ingredients: " ++ joinComma ingredients ++
    ". Suggest 4 unique and delicious dishes I can cook." ++
    excludeText excludeDishes ++
    " Focus on maximizing the use of these items. Provide output in JSON format."

/-- The needle occurs somewhere inside the haystack. -/
def containsStr (hay needle : String) : Prop :=
  ∃ l r, hay = l ++ needle ++ r

/-- Number of screens the render tree treats as active: one indicator per
screen branch of the App render. -/
def screenCount (s : SessionState) : Nat :=
  (if s.state = AppState.input then 1 else 0) +
    (if s.state = AppState.suggesting then 1 else 0) +
    (if s.state = AppState.results then 1 else 0) +
    (if s.state = AppState.loading_recipe then 1 else 0) +
    (if s.state = AppState.recipe then 1 else 0)

/-- A sample dish suggestion used in concrete traces. -/
def dPasta : DishSuggestion :=
  { id := "1", name := "Pasta", description := "A simple pasta dish"
    prepTime := "10 min", difficulty := Difficulty.easy }

/-- A sample recipe detail used in concrete traces. -/
def rPasta : RecipeDetail :=
  { name := "Pasta", ingredients := ["pasta"], instructions := ["boil"]
    tips := [], substitutions := [], youtubeSearchUrl := none, sources := none }

/-- Trace for claim 1: type an ingredient name. -/
def c1s1 : SessionState := setInputValue "chicken" initState

/-- Trace for claim 1: add the ingredient. -/
def c1s2 : SessionState := addIngredient "i1" c1s1

/-- Trace for claim 1: submit; the suggestion fetch starts. -/
def c1s3 : SessionState := (findDishesStart c1s2).1

/-- Trace for claim 1: the fetch succeeds with one dish. -/
def c1s4 : SessionState := findDishesOk c1s3 [dPasta]

/-- Trace for claim 1: back to edit; the suggestions stay populated. -/
def c1bad : SessionState := backFromResults c1s4

/-- Trace for claim 1 continued: submit again. -/
def c1s6 : SessionState := (findDishesStart c1bad).1

/-- Trace for claim 1 continued: the fetch succeeds again. -/
def c1s7 : SessionState := findDishesOk c1s6 [dPasta]

/-- Trace for claim 1 continued: select the dish. -/
def c1s8 : SessionState := showRecipeStart c1s7

/-- Trace for claim 1 continued: the detail fetch succeeds. -/
def c1s9 : SessionState := showRecipeOk c1s8 rPasta

/-- Trace for claim 1 continued: back to suggestions; the selected recipe
stays populated. -/
def c1bad2 : SessionState := backFromRecipe c1s9

/-- Trace for claim 8: type an ingredient name that is never added. -/
def c8s1 : SessionState := setInputValue "chicken" initState

/-- Trace for claim 8: upload a photo. -/
def c8s2 : SessionState := setCapturedImage "data:image/jpeg;base64,QUJD" c8s1

/-- Trace for claim 8: submit; the image satisfies the guard. -/
def c8s3 : SessionState := (findDishesStart c8s2).1

/-- Trace for claim 8: the fetch succeeds with one dish. -/
def c8s4 : SessionState := findDishesOk c8s3 [dPasta]

/-- Trace for claim 8: select the dish. -/
def c8s5 : SessionState := showRecipeStart c8s4

/-- Trace for claim 8: the detail fetch succeeds; screen is recipe and the
input buffer still holds the typed text. -/
def c8pre : SessionState := showRecipeOk c8s5 rPasta

/-- One observer trigger of the incremental loader: the state after the
synchronous prefix of loadMoreSuggestions runs. -/
def trigger (u : SessionState) : SessionState := (loadMoreStart u).1

/-- A session waiting on the initial suggestion fetch. -/
def wSugg : SessionState := { initState with state := AppState.suggesting }

/-- A session with a pagination fetch in flight. -/
def wFetching : SessionState := { initState with isFetchingMore := true }

/-- A session on the results screen showing one suggestion. -/
def wResults : SessionState :=
  { initState with state := AppState.results, suggestions := [dPasta] }

/-- A session whose input buffer holds padded text. -/
def wBuf : SessionState := { initState with inputValue := " chicken " }

/-- A session with an image uploaded. -/
def wImage : SessionState := setCapturedImage "data:image/jpeg;base64,QUJD" initState

lemma screenCount_eq_one (s : SessionState) : screenCount s = 1 := by
  obtain ⟨st, _, _, _, _, _, _, _, _⟩ := s
  cases st <;> rfl

lemma addIngredient_state (newId : String) (s : SessionState) :
    (addIngredient newId s).state = s.state := by
  simp only [addIngredient]
  split <;> rfl

lemma findDishesStart_state (s : SessionState) :
    (findDishesStart s).1.state = s.state ∨
      (findDishesStart s).1.state = AppState.suggesting := by
  simp only [findDishesStart]
  split
  · exact Or.inl rfl
  · exact Or.inr rfl

lemma loadMoreStart_state (s : SessionState) :
    (loadMoreStart s).1.state = s.state := by
  simp only [loadMoreStart]
  split <;> rfl

lemma loadMoreOk_state (s : SessionState) (results : List DishSuggestion) :
    (loadMoreOk s results).state = s.state := by
  simp only [loadMoreOk]
  split <;> rfl

lemma loadMoreOk_selectedRecipe (s : SessionState) (results : List DishSuggestion) :
    (loadMoreOk s results).selectedRecipe = s.selectedRecipe := by
  simp only [loadMoreOk]
  split <;> rfl

lemma recipe_has_selection {s : SessionState} (h : Reachable s) :
    s.state = AppState.recipe → s.selectedRecipe ≠ none := by
  induction h with
  | init => intro hs; exact absurd hs (by decide)
  | step hr hst ih =>
    cases hst with
    | typeInput v hg => exact fun hs => absurd (hg.symm.trans hs) (by decide)
    | add newId hg =>
        intro hs
        rw [addIngredient_state] at hs
        exact absurd (hg.symm.trans hs) (by decide)
    | remove id hg => exact fun hs => absurd (hg.symm.trans hs) (by decide)
    | upload img hg => exact fun hs => absurd (hg.symm.trans hs) (by decide)
    | submit hg =>
        intro hs
        rcases findDishesStart_state _ with he | he <;> rw [he] at hs
        · exact absurd (hg.symm.trans hs) (by decide)
        · exact absurd hs (by simp)
    | suggestOk results hg => intro hs; simp [findDishesOk] at hs
    | suggestErr hg => intro hs; simp [findDishesErr] at hs
    | loadMore hg =>
        intro hs
        rw [loadMoreStart_state] at hs
        exact absurd (hg.symm.trans hs) (by decide)
    | loadOk results hg =>
        intro hs
        rw [loadMoreOk_state] at hs
        rw [loadMoreOk_selectedRecipe]
        exact ih hs
    | loadErr hg => exact ih
    | select dish hg hmem => intro hs; simp [showRecipeStart] at hs
    | recipeOk detail hg => exact fun _ => by simp [showRecipeOk]
    | recipeErr hg => intro hs; simp [showRecipeErr] at hs
    | backResults hg => intro hs; simp [backFromResults] at hs
    | backRecipe hg => intro hs; simp [backFromRecipe] at hs
    | startOver hg => intro hs; simp [reset] at hs

/-- C1 (amended): in every reachable session state exactly one of the five
screens is active, and whenever the screen is recipe the selected recipe is
non-null. The original only-when direction for suggestions and
selectedRecipe fails: back navigation preserves both. -/
theorem claim1_invariant (s : SessionState) (h : Reachable s) :
    screenCount s = 1 ∧ (s.state = AppState.recipe → s.selectedRecipe ≠ none) :=
  ⟨screenCount_eq_one s, recipe_has_selection h⟩

/-- C1 witness: the amended invariant instantiated at the initial state. -/
theorem claim1_witness :
    screenCount initState = 1 ∧
      (initState.state = AppState.recipe → initState.selectedRecipe ≠ none) :=
  claim1_invariant initState Reachable.init

/-- C1 counterexample: a reachable state on the input screen with a
non-empty suggestion list, and a reachable state on the results screen with
a non-null selected recipe, refuting both only-when clauses of the claim. -/
theorem claim1_counterexample :
    Reachable c1bad ∧ c1bad.state = AppState.input ∧ c1bad.suggestions ≠ [] ∧
      Reachable c1bad2 ∧ c1bad2.state = AppState.results ∧
      c1bad2.selectedRecipe ≠ none := by
  have h1 : Reachable c1s1 := Reachable.init.step (Step.typeInput "chicken" (by decide))
  have h2 : Reachable c1s2 := h1.step (Step.add "i1" (by decide))
  have h3 : Reachable c1s3 := h2.step (Step.submit (by decide))
  have h4 : Reachable c1s4 := h3.step (Step.suggestOk [dPasta] (by decide))
  have h5 : Reachable c1bad := h4.step (Step.backResults (by decide))
  have h6 : Reachable c1s6 := h5.step (Step.submit (by decide))
  have h7 : Reachable c1s7 := h6.step (Step.suggestOk [dPasta] (by decide))
  have h8 : Reachable c1s8 := h7.step (Step.select dPasta (by decide) (by decide))
  have h9 : Reachable c1s9 := h8.step (Step.recipeOk rPasta (by decide))
  have h10 : Reachable c1bad2 := h9.step (Step.backRecipe (by decide))
  exact ⟨h5, by decide, by decide, h10, by decide, by decide⟩

/-- C2: submitting from the input screen moves to suggesting, clears the
error and issues a request exactly when an ingredient or an image is
present; with neither, the screen stays input, the error becomes non-null
and no request is issued. -/
theorem claim2_submit_guard (s : SessionState) (h : s.state = AppState.input) :
    ((s.ingredients ≠ [] ∨ s.capturedImage ≠ none) →
      (findDishesStart s).1.state = AppState.suggesting ∧
        (findDishesStart s).1.error = none ∧
        (findDishesStart s).2.isSome = true) ∧
      (s.ingredients = [] ∧ s.capturedImage = none →
        (findDishesStart s).1.state = AppState.input ∧
          (findDishesStart s).1.error ≠ none ∧
          (findDishesStart s).2 = none) := by
  constructor
  · intro hne
    have hb : (s.ingredients.isEmpty && s.capturedImage.isNone) = false := by
      rcases hne with hne | hne <;>
        simp [List.isEmpty_iff, Option.isNone_iff_eq_none, hne,
          Option.isSome_iff_ne_none]
    simp [findDishesStart, hb]
  · rintro ⟨hi, hc⟩
    have hb : (s.ingredients.isEmpty && s.capturedImage.isNone) = true := by
      simp [hi, hc]
    simp [findDishesStart, hb, h]

/-- C2 witness: the no-input branch at the initial state and the image
branch at a state with an uploaded photo. -/
theorem claim2_witness :
    ((findDishesStart initState).1.state = AppState.input ∧
      (findDishesStart initState).1.error ≠ none ∧
      (findDishesStart initState).2 = none) ∧
      ((findDishesStart wImage).1.state = AppState.suggesting ∧
        (findDishesStart wImage).1.error = none ∧
        (findDishesStart wImage).2.isSome = true) :=
  ⟨(claim2_submit_guard initState rfl).2 ⟨rfl, rfl⟩,
    (claim2_submit_guard wImage rfl).1 (Or.inr (by decide))⟩

/-- C3: a failing initial suggestion fetch lands back on the input screen
with a non-null error and an unchanged suggestion list. -/
theorem claim3_fetch_failure (s : SessionState) (h : s.state = AppState.suggesting) :
    (findDishesErr s).state = AppState.input ∧ (findDishesErr s).error ≠ none ∧
      (findDishesErr s).suggestions = s.suggestions :=
  ⟨rfl, by simp [findDishesErr], rfl⟩

/-- C3 witness: the failure completion at a waiting session. -/
theorem claim3_witness :
    (findDishesErr wSugg).state = AppState.input ∧
      (findDishesErr wSugg).error ≠ none ∧
      (findDishesErr wSugg).suggestions = wSugg.suggestions :=
  claim3_fetch_failure wSugg rfl

/-- C4: an idle, non-exhausted loader issues exactly one fetch per trigger
and marks itself in flight; a trigger arriving while a fetch is in flight or
after exhaustion issues nothing and changes nothing. -/
theorem claim4_single_flight (s t : SessionState)
    (h1 : s.isFetchingMore = false) (h2 : s.hasReachedEnd = false)
    (h3 : t.isFetchingMore = true ∨ t.hasReachedEnd = true) :
    (loadMoreStart s).2.isSome = true ∧
      (loadMoreStart s).1.isFetchingMore = true ∧
      (loadMoreStart (loadMoreStart s).1).2 = none ∧
      (loadMoreStart (loadMoreStart s).1).1 = (loadMoreStart s).1 ∧
      loadMoreStart t = (t, none) := by
  have hb : (s.isFetchingMore || s.hasReachedEnd) = false := by rw [h1, h2]; rfl
  have hu : (loadMoreStart s).1 = { s with isFetchingMore := true } := by
    simp [loadMoreStart, hb]
  refine ⟨by simp [loadMoreStart, hb], by rw [hu], ?_, ?_, ?_⟩
  · rw [hu]; simp [loadMoreStart]
  · rw [hu]; simp [loadMoreStart]
  · rcases h3 with h | h <;> simp [loadMoreStart, h]

/-- C4 witness: a fresh loader fetches once; a loader already in flight
drops the trigger. -/
theorem claim4_witness :
    (loadMoreStart initState).2.isSome = true ∧
      (loadMoreStart initState).1.isFetchingMore = true ∧
      (loadMoreStart (loadMoreStart initState).1).2 = none ∧
      (loadMoreStart (loadMoreStart initState).1).1 = (loadMoreStart initState).1 ∧
      loadMoreStart wFetching = (wFetching, none) :=
  claim4_single_flight initState wFetching rfl rfl (Or.inl rfl)

lemma ended_no_fetch (u : SessionState) (h : u.hasReachedEnd = true) :
    loadMoreStart u = (u, none) := by
  simp [loadMoreStart, h]

/-- C5: a pagination fetch returning zero items flags exhaustion, leaves the
suggestion sequence unchanged, and every later trigger is a no-op that
issues no fetch. -/
theorem claim5_empty_end (s : SessionState) (n : Nat) :
    (loadMoreOk s []).hasReachedEnd = true ∧
      (loadMoreOk s []).suggestions = s.suggestions ∧
      trigger^[n] (loadMoreOk s []) = loadMoreOk s [] ∧
      (loadMoreStart (trigger^[n] (loadMoreOk s []))).2 = none := by
  have hend : (loadMoreOk s []).hasReachedEnd = true := by simp [loadMoreOk]
  have hfix : trigger (loadMoreOk s []) = loadMoreOk s [] := by
    simp [trigger, ended_no_fetch _ hend]
  have hiter : trigger^[n] (loadMoreOk s []) = loadMoreOk s [] := by
    induction n with
    | zero => rfl
    | succ k ihk => rw [Function.iterate_succ_apply, hfix, ihk]
  refine ⟨hend, by simp [loadMoreOk], hiter, ?_⟩
  rw [hiter, ended_no_fetch _ hend]

/-- C6: a pagination fetch returning at least one item appends the new items
after the existing ones in order and leaves the exhaustion flag false. -/
theorem claim6_append (s : SessionState) (res : List DishSuggestion)
    (h1 : res ≠ []) (h2 : s.hasReachedEnd = false) :
    (loadMoreOk s res).suggestions = s.suggestions ++ res ∧
      (loadMoreOk s res).hasReachedEnd = false ∧
      (loadMoreOk s res).isFetchingMore = false := by
  have hb : res.isEmpty = false := by simp [List.isEmpty_iff, h1]
  simp [loadMoreOk, hb, h2]

/-- C6 witness: appending one new dish to an empty sequence. -/
theorem claim6_witness :
    (loadMoreOk initState [dPasta]).suggestions = initState.suggestions ++ [dPasta] ∧
      (loadMoreOk initState [dPasta]).hasReachedEnd = false ∧
      (loadMoreOk initState [dPasta]).isFetchingMore = false :=
  claim6_append initState [dPasta] (by decide) rfl

/-- C7: a failing pagination fetch clears the in-flight flag, leaves the
exhaustion flag false, surfaces no error, leaves the suggestions unchanged,
and a later trigger fetches again. -/
theorem claim7_soft_failure (s : SessionState) (h : s.hasReachedEnd = false) :
    (loadMoreErr s).isFetchingMore = false ∧
      (loadMoreErr s).hasReachedEnd = false ∧
      (loadMoreErr s).error = s.error ∧
      (loadMoreErr s).suggestions = s.suggestions ∧
      (loadMoreStart (loadMoreErr s)).2.isSome = true := by
  refine ⟨rfl, h, rfl, rfl, ?_⟩
  simp [loadMoreStart, loadMoreErr, h]

/-- C7 witness: the failure completion at the initial loader state. -/
theorem claim7_witness :
    (loadMoreErr initState).isFetchingMore = false ∧
      (loadMoreErr initState).hasReachedEnd = false ∧
      (loadMoreErr initState).error = initState.error ∧
      (loadMoreErr initState).suggestions = initState.suggestions ∧
      (loadMoreStart (loadMoreErr initState)).2.isSome = true :=
  claim7_soft_failure initState rfl

/-- C8 (amended): reset returns the screen to input and clears ingredients,
suggestions, selected recipe, image, and the exhaustion flag, but leaves the
free-text input buffer, the error message and the in-flight flag unchanged. -/
theorem claim8_reset (s : SessionState) :
    (reset s).state = AppState.input ∧ (reset s).ingredients = [] ∧
      (reset s).suggestions = [] ∧ (reset s).selectedRecipe = none ∧
      (reset s).capturedImage = none ∧ (reset s).hasReachedEnd = false ∧
      (reset s).inputValue = s.inputValue ∧ (reset s).error = s.error ∧
      (reset s).isFetchingMore = s.isFetchingMore :=
  ⟨rfl, rfl, rfl, rfl, rfl, rfl, rfl, rfl, rfl⟩

/-- C8 counterexample: a reachable recipe-screen session whose input buffer
holds typed text; reset keeps that text, so the state is not fully returned
to its initial values. -/
theorem claim8_counterexample :
    Reachable c8pre ∧ c8pre.state = AppState.recipe ∧
      (reset c8pre).inputValue = "chicken" ∧ initState.inputValue = "" := by
  have h1 : Reachable c8s1 := Reachable.init.step (Step.typeInput "chicken" (by decide))
  have h2 : Reachable c8s2 :=
    h1.step (Step.upload "data:image/jpeg;base64,QUJD" (by decide))
  have h3 : Reachable c8s3 := h2.step (Step.submit (by decide))
  have h4 : Reachable c8s4 := h3.step (Step.suggestOk [dPasta] (by decide))
  have h5 : Reachable c8s5 := h4.step (Step.select dPasta (by decide) (by decide))
  have h6 : Reachable c8pre := h5.step (Step.recipeOk rPasta (by decide))
  exact ⟨h6, by decide, by decide, rfl⟩

lemma joinComma_mem (x : String) :
    ∀ xs : List String, x ∈ xs → ∃ l r, joinComma xs = l ++ x ++ r := by
  intro xs
  induction xs with
  | nil => intro hx; exact absurd hx (List.not_mem_nil x)
  | cons a as ih =>
    intro hx
    cases as with
    | nil =>
      have hxa : x = a := by simpa using hx
      subst hxa
      exact ⟨"", "", by simp [joinComma, String.append_empty]⟩
    | cons b bs =>
      rcases List.mem_cons.mp hx with hxa | hxs
      · subst hxa
        refine ⟨"", ", " ++ joinComma (b :: bs), ?_⟩
        simp [joinComma, String.append_assoc]
      · obtain ⟨l, r, hlr⟩ := ih hxs
        refine ⟨a ++ ", " ++ l, r, ?_⟩
        simp [joinComma, hlr, String.append_assoc]

lemma prompt_asks_four (ing exc : List String) :
    containsStr (suggestionPrompt ing exc)
      "Suggest 4 unique and delicious dishes I can cook." := by
  refine ⟨"Based on these ingredients: " ++ joinComma ing ++ ". ",
    excludeText exc ++
      " Focus on maximizing the use of these items. Provide output in JSON format.",
    ?_⟩
  have hB : (". Suggest 4 unique and delicious dishes I can cook." : String) =
      ". " ++ "Suggest 4 unique and delicious dishes I can cook." := by decide
  unfold suggestionPrompt
  rw [hB]
  simp [String.append_assoc]

lemma prompt_avoids_name (ing exc : List String) (nm : String) (hmem : nm ∈ exc) :
    containsStr (suggestionPrompt ing exc) nm := by
  obtain ⟨l, r, hlr⟩ := joinComma_mem nm exc hmem
  have hpos : exc.length > 0 := List.length_pos.mpr (List.ne_nil_of_mem hmem)
  refine ⟨"Based on these ingredients: " ++ joinComma ing ++
      ". Suggest 4 unique and delicious dishes I can cook." ++
      " DO NOT suggest any of these existing dishes: " ++ l,
    r ++ "." ++
      " Focus on maximizing the use of these items. Provide output in JSON format.",
    ?_⟩
  have hC : (". Suggest 4 unique and delicious dishes I can cook." : String) ++
      " DO NOT suggest any of these existing dishes: " =
      ". Suggest 4 unique and delicious dishes I can cook. DO NOT suggest any of these existing dishes: " := by
    decide
  unfold suggestionPrompt excludeText
  rw [if_pos hpos, hlr]
  simp [String.append_assoc]
  rw [← hC, String.append_assoc]

/-- C9: a pagination fetch excludes exactly the names of the suggestions
already shown, and the suggestion prompt asks for 4 dishes and names every
excluded dish in its avoidance clause. -/
theorem claim9_exclusion_and_prompt (s : SessionState) (ing exc : List String)
    (h1 : s.isFetchingMore = false) (h2 : s.hasReachedEnd = false) :
    (loadMoreStart s).2.map (fun r => r.exclude) =
        some (s.suggestions.map (fun d => d.name)) ∧
      containsStr (suggestionPrompt ing exc)
        "Suggest 4 unique and delicious dishes I can cook." ∧
      ∀ nm, nm ∈ exc → containsStr (suggestionPrompt ing exc) nm := by
  have hb : (s.isFetchingMore || s.hasReachedEnd) = false := by rw [h1, h2]; rfl
  exact ⟨by simp [loadMoreStart, hb], prompt_asks_four ing exc,
    fun nm hm => prompt_avoids_name ing exc nm hm⟩

/-- C9 witness: a results-screen session with one shown dish and a concrete
one-name exclusion list. -/
theorem claim9_witness :
    (loadMoreStart wResults).2.map (fun r => r.exclude) =
        some (wResults.suggestions.map (fun d => d.name)) ∧
      containsStr (suggestionPrompt ["chicken"] ["Pasta"])
        "Suggest 4 unique and delicious dishes I can cook." ∧
      ∀ nm, nm ∈ (["Pasta"] : List String) →
        containsStr (suggestionPrompt ["chicken"] ["Pasta"]) nm :=
  claim9_exclusion_and_prompt wResults ["chicken"] ["Pasta"] rfl rfl

/-- C10: adding an ingredient is a no-op on a blank buffer; otherwise it
appends exactly one ingredient named by the trimmed buffer, keeps the prior
ingredients in order, and clears the buffer. -/
theorem claim10_addIngredient (s : SessionState) (newId : String) :
    (jsTrim s.inputValue = "" → addIngredient newId s = s) ∧
      (jsTrim s.inputValue ≠ "" →
        (addIngredient newId s).ingredients =
            s.ingredients ++ [{ id := newId, name := jsTrim s.inputValue }] ∧
          (addIngredient newId s).inputValue = "") := by
  constructor
  · intro hb; simp [addIngredient, hb]
  · intro hb; simp [addIngredient, hb]

/-- C10 witness: the blank buffer at the initial state and a padded buffer
that gets trimmed, appended and cleared. -/
theorem claim10_witness :
    addIngredient "i1" initState = initState ∧
      (addIngredient "i1" wBuf).ingredients =
        wBuf.ingredients ++ [{ id := "i1", name := jsTrim wBuf.inputValue }] ∧
      (addIngredient "i1" wBuf).inputValue = "" :=
  ⟨(claim10_addIngredient initState "i1").1 rfl,
    (claim10_addIngredient wBuf "i1").2 (by decide)⟩

end RecipeApp
